import Mathlib

/-!
Verification development for the execution-strategy resolver and dispatcher of the
`python_unittest_vscode` language-server tool (`bundled/tool/lsp_server.py`).

The Python source is shallowly embedded: module-level mutable state
(`WORKSPACE_SETTINGS`, `sys.path`) is passed explicitly, Python dicts become
insertion-ordered association lists, `pathlib.Path` values become component lists,
code that can raise returns `Option`/`Except`, and calls into collaborator modules
that are not part of the embedded source (`lsp_utils`, `lsp_jsonrpc`, `pygls`,
`ast`, `os`, `sys`) are either abstract parameters gathered in `Env`/`Backends`
or definitions modelled from the specification, as marked in their doc comments.
-/

set_option autoImplicit false
set_option maxRecDepth 100000
set_option maxHeartbeats 1000000

namespace UnittestLsp

/-! ## Data model -/

/-- Severity of a log entry emitted through `log_to_output` / `log_error` /
`log_warning` (`lsp.MessageType.Log` / `Error` / `Warning`). -/
inductive LogLevel
  | log
  | error
  | warning
deriving DecidableEq, Repr

/-- One entry written to the output log. -/
structure LogEntry where
  level : LogLevel
  message : String
deriving DecidableEq, Repr

/-- `utils.RunResult`: captured stdout/stderr of one tool invocation. -/
structure RunResult where
  stdout : String
  stderr : String
deriving DecidableEq, Repr

/-- `jsonrpc.RpcRunResult`: stdout/stderr plus the optional remote exception
traceback returned by the cross-runtime channel. -/
structure RpcRunResult where
  stdout : String
  stderr : String
  exception : Option String
deriving DecidableEq, Repr

/-- One inbound configuration object from the session layer.  It carries exactly
the six inbound fields of the configuration payload
(`{workspace, path, interpreter, args, importStrategy, showNotifications}`). -/
structure Setting where
  workspace : String
  path : List String
  interpreter : List String
  args : List String
  importStrategy : String
  showNotifications : String
deriving DecidableEq, Repr

/-- A resolved settings record as stored in `WORKSPACE_SETTINGS`: the six inbound
fields plus the `cwd` and `workspaceFS` fields added by
`_update_workspace_settings` / the default-record synthesis. -/
structure Record where
  cwd : String
  workspace : String
  workspaceFS : String
  path : List String
  interpreter : List String
  args : List String
  importStrategy : String
  showNotifications : String
deriving DecidableEq, Repr

/-- `GLOBAL_SETTINGS`: each field is `none` when the key is absent, so that
`_get_global_defaults` applies its per-key default (`dict.get` with default). -/
structure GlobalSettings where
  path : Option (List String)
  interpreter : Option (List String)
  args : Option (List String)
  importStrategy : Option String
  showNotifications : Option String
deriving DecidableEq, Repr

/-- Ambient process state and external collaborator functions used by the source:
`os.getcwd()`, `sys.executable`, `GLOBAL_SETTINGS`, `utils.is_current_interpreter`,
`utils.is_stdlib_file`, success of `ast.parse`, and the `pygls` URI conversions.
All are abstract so theorems quantify over every environment. -/
structure Env where
  cwd : String
  executable : String
  globalSettings : GlobalSettings
  is_current_interpreter : String → Bool
  is_stdlib_file : String → Bool
  parsesOk : String → Bool
  to_fs_path : String → String
  from_fs_path : String → String

/-- An absolute `pathlib.Path`, as its components below the filesystem root;
`[]` is the root `/` (whose `parent` is itself, ending ancestor walks). -/
abbrev PyPath := List String

/-- `str(path)` of an absolute path. -/
def pathStr (p : PyPath) : String :=
  if p = [] then "/" else String.join (p.map (fun c => "/" ++ c))

/-- Python's `str.startswith`, computed on the underlying character lists so
that it evaluates by plain structural reduction. -/
def pyStartsWith (s pre : String) : Bool :=
  pre.data.isPrefixOf s.data

/-- A `workspace.Document`: URI, filesystem path (`none` when the URI has no
filesystem path), and source text. -/
structure Document where
  uri : String
  path : Option PyPath
  source : String
deriving DecidableEq, Repr

/-- The string form of `document.path` as interpolated by the source
(`"None"` for a missing path). -/
def Document.pathString (d : Document) : String :=
  match d.path with
  | some p => pathStr p
  | none => "None"

/-! ## The settings store (`WORKSPACE_SETTINGS`)

A Python `dict` keyed by workspace-root strings: modelled as an association
list in insertion order, with in-place overwrite on an existing key. -/

abbrev Store := List (String × Record)

/-- `d[k] = v` on a Python dict: overwrite in place if `k` is present,
otherwise append at the end (insertion order). -/
def dictSet (store : Store) (k : String) (v : Record) : Store :=
  if store.any (fun p => p.1 = k) then
    store.map (fun p => if p.1 = k then (k, v) else p)
  else store ++ [(k, v)]

/-- `d[k]` on a Python dict; `none` models the raised `KeyError`. -/
def dictLookup (store : Store) (k : String) : Option Record :=
  (store.find? (fun p => p.1 = k)).map Prod.snd

/-- `list(d.values())`, in insertion order. -/
def dictValues (store : Store) : List Record := store.map Prod.snd

/-- `TOOL_MODULE` from the source. -/
def TOOL_MODULE : String := "unittest_generator"

/-- `TOOL_ARGS` from the source (empty: no fixed default arguments). -/
def TOOL_ARGS : List String := []

/-- `_get_global_defaults()`: the five defaultable fields. -/
structure Defaults where
  path : List String
  interpreter : List String
  args : List String
  importStrategy : String
  showNotifications : String
deriving DecidableEq, Repr

/-- `_get_global_defaults` from the source: reads `GLOBAL_SETTINGS` with the
per-key defaults (`[]`, `[sys.executable]`, `[]`, `"useBundled"`, `"off"`). -/
def _get_global_defaults (env : Env) : Defaults where
  path := env.globalSettings.path.getD []
  interpreter := env.globalSettings.interpreter.getD [env.executable]
  args := env.globalSettings.args.getD []
  importStrategy := env.globalSettings.importStrategy.getD "useBundled"
  showNotifications := env.globalSettings.showNotifications.getD "off"

/-- The synthesized record `{cwd: key, workspaceFS: key, workspace:
uris.from_fs_path(key), **_get_global_defaults()}` built at both default-record
sites of the source. -/
def defaultRecord (env : Env) (key : String) : Record :=
  let d := _get_global_defaults env
  { cwd := key, workspaceFS := key, workspace := env.from_fs_path key
  , path := d.path, interpreter := d.interpreter, args := d.args
  , importStrategy := d.importStrategy, showNotifications := d.showNotifications }

/-- `_update_workspace_settings` from the source.  An empty (or `None`) payload
stores one synthesized default record keyed by the current working directory;
otherwise each config object is written into the store under the filesystem
path of its workspace URI, as `{"cwd": key, **setting, "workspaceFS": key}`
(the inbound `Setting` carries no `cwd`/`workspaceFS` key, so the splat cannot
override them).  The store is never cleared first. -/
def _update_workspace_settings (env : Env) (settings : List Setting)
    (store : Store) : Store :=
  if settings = [] then
    dictSet store env.cwd (defaultRecord env env.cwd)
  else
    settings.foldl (fun st s =>
      let key := env.to_fs_path s.workspace
      dictSet st key
        { cwd := key, workspace := s.workspace, path := s.path
        , interpreter := s.interpreter, args := s.args
        , importStrategy := s.importStrategy
        , showNotifications := s.showNotifications
        , workspaceFS := key }) store

/-- The set `{s["workspaceFS"] for s in WORKSPACE_SETTINGS.values()}`. -/
def workspaceRoots (store : Store) : List String :=
  (dictValues store).map Record.workspaceFS

/-- The ancestor walk shared by `_get_settings_by_path` and `_get_document_key`:
`while p != p.parent: if str(p) in workspaces: return str(p); p = p.parent`.
The path is processed in reversed component order so that taking `parent`
(= dropping the last component) is structural recursion on the list. -/
def findWorkspaceKeyRev (roots : List String) : List String → Option String
  | [] => none
  | c :: rest =>
      if roots.contains (pathStr (c :: rest).reverse) then
        some (pathStr (c :: rest).reverse)
      else findWorkspaceKeyRev roots rest

/-- The ancestor walk on a path in its ordinary component order.  It starts at
the given path itself and stops (returning `none`) at the root, which is never
compared. -/
def findWorkspaceKey (roots : List String) (p : PyPath) : Option String :=
  findWorkspaceKeyRev roots p.reverse

/-- `_get_settings_by_path` from the source: walk the ancestors of `file_path`
(starting at `file_path` itself); on a match return the stored record under the
matched key (`none` models the `KeyError`); otherwise return the first stored
record (`none` models the `IndexError` on an empty store). -/
def _get_settings_by_path (store : Store) (file_path : PyPath) : Option Record :=
  match findWorkspaceKey (workspaceRoots store) file_path with
  | some k => dictLookup store k
  | none => (dictValues store).head?

/-- `_get_document_key` from the source: with a non-empty store, walk the
ancestors of the document path (starting at the path itself) and return the
first one contained in the `workspaceFS` set; otherwise `None`. -/
def _get_document_key (store : Store) (documentPath : PyPath) : Option String :=
  if store.isEmpty then none
  else findWorkspaceKey (workspaceRoots store) documentPath

/-- `_get_settings_by_document` from the source.  With no document (or no
document path) it returns `list(WORKSPACE_SETTINGS.values())[0]` — `none`
models the `IndexError` raised on an empty store.  Otherwise it resolves the
document key; with no key it synthesizes a one-off default record keyed by the
document's parent directory, and with a key it returns
`WORKSPACE_SETTINGS[key]` (`none` models the `KeyError`). -/
def _get_settings_by_document (env : Env) (store : Store)
    (document : Option Document) : Option Record :=
  match document with
  | none => (dictValues store).head?
  | some d =>
    match d.path with
    | none => (dictValues store).head?
    | some p =>
      match _get_document_key store p with
      | none => some (defaultRecord env (pathStr p.dropLast))
      | some key => dictLookup store key

/-! ## Strategy selection -/

/-- The three execution strategies. -/
inductive Strategy
  | DirectPath
  | CrossRuntimeRpc
  | InProcessModule
deriving DecidableEq, Repr

/-- The strategy branching shared verbatim by `_run_tool_on_document` and
`_run_tool` (the `use_path` / `use_rpc` flags): a non-empty `path` setting
takes priority over everything; otherwise a non-empty `interpreter` whose
first element is not the current interpreter selects the cross-runtime RPC
backend; otherwise the tool runs as a module in this process. -/
def selectStrategy (env : Env) (settings : Record) : Strategy :=
  if !settings.path.isEmpty then .DirectPath
  else if !settings.interpreter.isEmpty
      && !env.is_current_interpreter (settings.interpreter.headD "") then
    .CrossRuntimeRpc
  else .InProcessModule

/-! ## Backends and effects -/

/-- A well-formed response from the cross-runtime subprocess: either the remote
run's stdout/stderr, or the traceback of an exception the remote tool raised. -/
inductive RemoteResponse
  | ok (stdout stderr : String)
  | remoteException (traceback : String)
deriving DecidableEq, Repr

/-- Modelled from the spec: `jsonrpc.run_over_json_rpc` (the `lsp_jsonrpc`
module is not under `src/`).  Per the CrossRuntimeRpc backend contract, a
well-formed response carrying a remote exception comes back with stdout/stderr
reset to empty strings and the remote traceback in the `exception` field; a
successful response carries the remote stdout/stderr with no exception. -/
def run_over_json_rpc (resp : RemoteResponse) : RpcRunResult :=
  match resp with
  | .ok out err => { stdout := out, stderr := err, exception := none }
  | .remoteException tb => { stdout := "", stderr := "", exception := some tb }

/-- Modelled from the spec: `utils.substitute_attr sys "path"` (the `lsp_utils`
module is not under `src/`).  Per the InProcessModule backend contract it
substitutes the process-wide `sys.path` with the supplied scoped value for the
duration of the body and restores the saved value on every exit path, including
when the body raises.  The body returns the raised exception or its value in
`Except`, together with the `sys.path` state it left behind; the restore
discards that left-behind state. -/
def substitute_attr {α : Type} (saved newVal : List String)
    (body : List String → Except String α × List String) :
    Except String α × List String :=
  let r := body newVal
  (r.1, saved)

/-- Modelled from the spec: the observable behavior of the execution backends
(`utils.run_path`, the remote side of `jsonrpc.run_over_json_rpc`, and
`utils.run_module`), which live outside `src/` and perform process/RPC I/O.
Each is an arbitrary function of its call arguments, so theorems quantify over
every backend behavior; `run_module` additionally acts on the `sys.path` state
and may raise. -/
structure Backends where
  run_path : List String → Bool → String → Option String → RunResult
  rpc : RemoteResponse
  run_module : String → List String → Bool → String → Option String →
      List String → Except String RunResult × List String

/-- A record of one backend invocation performed by the dispatcher, carrying
the arguments the source passes to `utils.run_path`,
`jsonrpc.run_over_json_rpc`, or `utils.run_module`. -/
inductive BackendCall
  | path (argv : List String) (use_stdin : Bool) (cwd : String)
      (source : Option String)
  | rpc (workspace : String) (interpreter : List String) (module : String)
      (argv : List String) (use_stdin : Bool) (cwd : String)
      (source : Option String)
  | module (module : String) (argv : List String) (use_stdin : Bool)
      (cwd : String) (source : Option String)
deriving DecidableEq, Repr

/-- Which strategy a recorded backend call belongs to. -/
def BackendCall.strategy : BackendCall → Strategy
  | .path _ _ _ _ => .DirectPath
  | .rpc _ _ _ _ _ _ _ => .CrossRuntimeRpc
  | .module _ _ _ _ _ => .InProcessModule

/-- The argv of a recorded backend call. -/
def BackendCall.argv : BackendCall → List String
  | .path a _ _ _ => a
  | .rpc _ _ _ a _ _ _ => a
  | .module _ a _ _ _ => a

/-- The `use_stdin` flag of a recorded backend call. -/
def BackendCall.useStdin : BackendCall → Bool
  | .path _ u _ _ => u
  | .rpc _ _ _ _ u _ _ => u
  | .module _ _ u _ _ => u

/-- Everything observable about one dispatcher entry-point call: the returned
value (`.error` = an uncaught exception propagated to the caller, `.ok none` =
the document was skipped), the log entries written, the backend invocations
performed, and the final process-wide `sys.path` state. -/
structure DispatchOut where
  result : Except String (Option RunResult)
  log : List LogEntry
  calls : List BackendCall
  sysPath : List String

/-- `document.source.replace "\r\n" "\n"` from the source. -/
def replaceCrLf (s : String) : String :=
  String.intercalate "\n" (s.splitOn "\r\n")

/-- `is_python` from the source: whether the code parses as Python
(`ast.parse`, an external library, is abstracted as `env.parsesOk`), together
with the error-level entry `log_error` writes when parsing fails (the
interpolated traceback text is abstracted). -/
def is_python (env : Env) (code : String) : Bool × List LogEntry :=
  if env.parsesOk code then (true, [])
  else (false, [⟨.error, "Syntax error in code: <traceback>"⟩])

/-! ## Dispatcher entry points -/

/-- `_run_tool_on_document` from the source.  Pre-filters in order: skip
notebook-cell URIs silently; skip non-Python content with one warning; skip
standard-library files silently.  Then resolve settings (a deep copy — value
semantics here), pick the strategy, build
`argv = base ++ TOOL_ARGS ++ settings.args ++ extra_args` plus the document
path when not using stdin, invoke the selected backend, log, and return. -/
def _run_tool_on_document (env : Env) (bk : Backends) (store : Store)
    (sysPath : List String) (document : Document) (use_stdin : Bool)
    (extra_args : Option (List String)) : DispatchOut :=
  let extra := extra_args.getD []
  if pyStartsWith document.uri "vscode-notebook-cell" then
    { result := .ok none, log := [], calls := [], sysPath := sysPath }
  else
    let pyres := is_python env document.source
    if !pyres.1 then
      { result := .ok none
      , log := pyres.2 ++
          [⟨.warning, "Skipping non python code: " ++ document.pathString⟩]
      , calls := [], sysPath := sysPath }
    else if env.is_stdlib_file document.pathString then
      { result := .ok none, log := pyres.2, calls := [], sysPath := sysPath }
    else
      match _get_settings_by_document env store (some document) with
      | none =>
        -- the IndexError/KeyError raised inside settings resolution propagates
        { result := .error "IndexError", log := pyres.2, calls := []
        , sysPath := sysPath }
      | some settings =>
        let code_workspace := settings.workspaceFS
        let cwd := settings.cwd
        let base :=
          match selectStrategy env settings with
          | .DirectPath => settings.path
          | _ => [TOOL_MODULE]
        let argv0 := base ++ TOOL_ARGS ++ settings.args ++ extra
        let argv := if use_stdin then argv0 ++ [] else argv0 ++ [document.pathString]
        match selectStrategy env settings with
        | .DirectPath =>
          let src := replaceCrLf document.source
          let result := bk.run_path argv use_stdin cwd (some src)
          let log0 := pyres.2 ++
            [⟨.log, String.intercalate " " argv⟩, ⟨.log, "CWD Server: " ++ cwd⟩]
          let log1 := log0 ++
            (if result.stderr ≠ "" then [⟨.log, result.stderr⟩] else [])
          { result := .ok (some result)
          , log := log1 ++ [⟨.log, document.uri ++ " :\r\n" ++ result.stdout⟩]
          , calls := [.path argv use_stdin cwd (some src)], sysPath := sysPath }
        | .CrossRuntimeRpc =>
          let r := run_over_json_rpc bk.rpc
          let log0 := pyres.2 ++
            [⟨.log, String.intercalate " " (settings.interpreter ++ ["-m"] ++ argv)⟩,
             ⟨.log, "CWD Linter: " ++ cwd⟩]
          let call := BackendCall.rpc code_workspace settings.interpreter
            TOOL_MODULE argv use_stdin cwd (some document.source)
          match r.exception with
          | some e =>
            -- log_error(result.exception); result = RunResult(stdout, stderr)
            { result := .ok (some { stdout := r.stdout, stderr := r.stderr })
            , log := log0 ++ [⟨.error, e⟩] ++
                [⟨.log, document.uri ++ " :\r\n" ++ r.stdout⟩]
            , calls := [call], sysPath := sysPath }
          | none =>
            let log1 := log0 ++
              (if r.stderr ≠ "" then [⟨.log, r.stderr⟩] else [])
            { result := .ok (some { stdout := r.stdout, stderr := r.stderr })
            , log := log1 ++ [⟨.log, document.uri ++ " :\r\n" ++ r.stdout⟩]
            , calls := [call], sysPath := sysPath }
        | .InProcessModule =>
          let log0 := pyres.2 ++
            [⟨.log, String.intercalate " " ([env.executable, "-m"] ++ argv)⟩,
             ⟨.log, "CWD Linter: " ++ cwd⟩]
          let call := BackendCall.module TOOL_MODULE argv use_stdin cwd
            (some document.source)
          -- with substitute_attr(sys, "path", sys.path[:]): value semantics
          -- make the scoped copy equal to the current state.
          let rr := substitute_attr sysPath sysPath
            (fun sp => bk.run_module TOOL_MODULE argv use_stdin cwd
              (some document.source) sp)
          match rr.1 with
          | .error exc =>
            -- log_error(traceback); raise
            { result := .error exc, log := log0 ++ [⟨.error, exc⟩]
            , calls := [call], sysPath := rr.2 }
          | .ok result =>
            let log1 := log0 ++
              (if result.stderr ≠ "" then [⟨.log, result.stderr⟩] else [])
            { result := .ok (some result)
            , log := log1 ++ [⟨.log, document.uri ++ " :\r\n" ++ result.stdout⟩]
            , calls := [call], sysPath := rr.2 }

/-- `_run_tool` from the source: the document-free entry point.  Settings are
resolved with no document, `cwd` is the record's `workspaceFS`, every backend
is invoked with `use_stdin = True` and no source text, and
`argv = base ++ extra_args` (nothing else is appended). -/
def _run_tool (env : Env) (bk : Backends) (store : Store)
    (sysPath : List String) (extra_args : List String) : DispatchOut :=
  match _get_settings_by_document env store none with
  | none =>
    { result := .error "IndexError", log := [], calls := [], sysPath := sysPath }
  | some settings =>
    let code_workspace := settings.workspaceFS
    let cwd := settings.workspaceFS
    let base :=
      match selectStrategy env settings with
      | .DirectPath => settings.path
      | _ => [TOOL_MODULE]
    let argv := base ++ extra_args
    match selectStrategy env settings with
    | .DirectPath =>
      let result := bk.run_path argv true cwd none
      let log0 :=
        [⟨.log, String.intercalate " " argv⟩, ⟨.log, "CWD Server: " ++ cwd⟩]
      let log1 := log0 ++
        (if result.stderr ≠ "" then [⟨.log, result.stderr⟩] else [])
      { result := .ok (some result)
      , log := log1 ++ [⟨.log, "\r\n" ++ result.stdout ++ "\r\n"⟩]
      , calls := [.path argv true cwd none], sysPath := sysPath }
    | .CrossRuntimeRpc =>
      let r := run_over_json_rpc bk.rpc
      let log0 :=
        [⟨.log, String.intercalate " " (settings.interpreter ++ ["-m"] ++ argv)⟩,
         ⟨.log, "CWD Linter: " ++ cwd⟩]
      let call := BackendCall.rpc code_workspace settings.interpreter
        TOOL_MODULE argv true cwd none
      match r.exception with
      | some e =>
        { result := .ok (some { stdout := r.stdout, stderr := r.stderr })
        , log := log0 ++ [⟨.error, e⟩, ⟨.log, "\r\n" ++ r.stdout ++ "\r\n"⟩]
        , calls := [call], sysPath := sysPath }
      | none =>
        let log1 := log0 ++ (if r.stderr ≠ "" then [⟨.log, r.stderr⟩] else [])
        { result := .ok (some { stdout := r.stdout, stderr := r.stderr })
        , log := log1 ++ [⟨.log, "\r\n" ++ r.stdout ++ "\r\n"⟩]
        , calls := [call], sysPath := sysPath }
    | .InProcessModule =>
      let log0 :=
        [⟨.log, String.intercalate " " ([env.executable, "-m"] ++ argv)⟩,
         ⟨.log, "CWD Linter: " ++ cwd⟩]
      let call := BackendCall.module TOOL_MODULE argv true cwd none
      let rr := substitute_attr sysPath sysPath
        (fun sp => bk.run_module TOOL_MODULE argv true cwd none sp)
      match rr.1 with
      | .error exc =>
        { result := .error exc, log := log0 ++ [⟨.error, exc⟩]
        , calls := [call], sysPath := rr.2 }
      | .ok result =>
        let log1 := log0 ++
          (if result.stderr ≠ "" then [⟨.log, result.stderr⟩] else [])
        { result := .ok (some result)
        , log := log1 ++ [⟨.log, "\r\n" ++ result.stdout ++ "\r\n"⟩]
        , calls := [call], sysPath := rr.2 }

/-! ## Concrete fixtures used by witnesses and counterexamples -/

/-- A concrete environment: cwd `/cwd`, interpreter `/usr/bin/py` (the current
one), every document parses, nothing is a stdlib file, URI conversions are the
identity on paths. -/
def envA : Env where
  cwd := "/cwd"
  executable := "/usr/bin/py"
  globalSettings := ⟨none, none, none, none, none⟩
  is_current_interpreter := fun s => s == "/usr/bin/py"
  is_stdlib_file := fun _ => false
  parsesOk := fun _ => true
  to_fs_path := fun s => s
  from_fs_path := fun s => s

/-- Concrete backends: every backend returns empty output and leaves
`sys.path` unchanged; the remote response is a successful empty run. -/
def bkA : Backends where
  run_path := fun _ _ _ _ => { stdout := "", stderr := "" }
  rpc := .ok "" ""
  run_module := fun _ _ _ _ _ sp => (.ok { stdout := "", stderr := "" }, sp)

/-- The settings record of the C9 scenario: empty `path`, the current
interpreter, user args `["--check"]`, rooted at `/proj`. -/
def recC9 : Record where
  cwd := "/proj"
  workspace := "file:///proj"
  workspaceFS := "/proj"
  path := []
  interpreter := ["/usr/bin/py"]
  args := ["--check"]
  importStrategy := "useBundled"
  showNotifications := "off"

/-- A store holding only the C9 record under its workspace root. -/
def storeC9 : Store := [("/proj", recC9)]

/-- The C9 document at `/proj/x.src`. -/
def docC9 : Document where
  uri := "file:///proj/x.src"
  path := some ["proj", "x.src"]
  source := "pass"

/-- A config object for workspace root `/old`. -/
def settingOld : Setting where
  workspace := "/old"
  path := []
  interpreter := []
  args := []
  importStrategy := "useBundled"
  showNotifications := "off"

/-- A config object for workspace root `/new`. -/
def settingNew : Setting where
  workspace := "/new"
  path := []
  interpreter := []
  args := []
  importStrategy := "useBundled"
  showNotifications := "off"

/-- The record `_update_workspace_settings` stores for `settingNew` under
`envA` (identity URI conversion). -/
def recNewStored : Record where
  cwd := "/new"
  workspace := "/new"
  workspaceFS := "/new"
  path := []
  interpreter := []
  args := []
  importStrategy := "useBundled"
  showNotifications := "off"

/-- A record whose workspace root is the full file path `/a/b/c/file.x`. -/
def recFileX : Record where
  cwd := "/a/b/c/file.x"
  workspace := "file:///a/b/c/file.x"
  workspaceFS := "/a/b/c/file.x"
  path := []
  interpreter := []
  args := ["file-record"]
  importStrategy := "useBundled"
  showNotifications := "off"

/-- A record whose workspace root is the directory `/a/b/c`. -/
def recDirC : Record where
  cwd := "/a/b/c"
  workspace := "file:///a/b/c"
  workspaceFS := "/a/b/c"
  path := []
  interpreter := []
  args := ["dir-record"]
  importStrategy := "useBundled"
  showNotifications := "off"

/-- A store containing a root equal to a full file path and a root equal to
that file's directory. -/
def storeFileX : Store := [("/a/b/c/file.x", recFileX), ("/a/b/c", recDirC)]

/-- The document at `/a/b/c/file.x`. -/
def docFileX : Document where
  uri := "file:///a/b/c/file.x"
  path := some ["a", "b", "c", "file.x"]
  source := "pass"

/-- A record rooted at `/a`. -/
def recA : Record where
  cwd := "/a"
  workspace := "file:///a"
  workspaceFS := "/a"
  path := []
  interpreter := []
  args := ["outer-record"]
  importStrategy := "useBundled"
  showNotifications := "off"

/-- A record rooted at `/a/b`. -/
def recAB : Record where
  cwd := "/a/b"
  workspace := "file:///a/b"
  workspaceFS := "/a/b"
  path := []
  interpreter := []
  args := ["inner-record"]
  importStrategy := "useBundled"
  showNotifications := "off"

/-- A store containing the nested roots `/a` and `/a/b`. -/
def storeAB : Store := [("/a", recA), ("/a/b", recAB)]

/-! ## Store lemmas shared by the settings-update claims -/

/-- The keys of `dictSet`: unchanged when the key was already present,
otherwise extended by the new key at the end. -/
theorem keys_dictSet (store : Store) (k : String) (v : Record) :
    (dictSet store k v).map Prod.fst
      = if store.any (fun p => p.1 = k) then store.map Prod.fst
        else store.map Prod.fst ++ [k] := by
  unfold dictSet
  by_cases h : store.any (fun p => p.1 = k)
  · simp only [h, if_true, List.map_map]
    apply List.map_congr_left
    intro p _
    by_cases hp : p.1 = k
    · simp [hp]
    · simp [hp]
  · simp [h]

/-- Membership in the keys of `dictSet`. -/
theorem mem_keys_dictSet (store : Store) (k k2 : String) (v : Record) :
    k ∈ (dictSet store k2 v).map Prod.fst
      ↔ k ∈ store.map Prod.fst ∨ k = k2 := by
  rw [keys_dictSet]
  by_cases h : store.any (fun p => p.1 = k2)
  · simp only [h, if_true]
    constructor
    · exact Or.inl
    · rintro (hk | rfl)
      · exact hk
      · obtain ⟨p, hp, hpk⟩ := List.any_eq_true.mp h
        exact List.mem_map.mpr ⟨p, hp, by simpa using hpk⟩
  · simp [h]

/-- The update loop of `_update_workspace_settings`, key membership: the keys
after folding the payload are the old keys together with the workspace-root
keys of the payload. -/
theorem mem_keys_update_foldl (env : Env) (payload : List Setting)
    (store : Store) (k : String) :
    k ∈ (payload.foldl (fun st s =>
          let key := env.to_fs_path s.workspace
          dictSet st key
            { cwd := key, workspace := s.workspace, path := s.path
            , interpreter := s.interpreter, args := s.args
            , importStrategy := s.importStrategy
            , showNotifications := s.showNotifications
            , workspaceFS := key }) store).map Prod.fst
      ↔ k ∈ store.map Prod.fst
        ∨ k ∈ payload.map (fun s => env.to_fs_path s.workspace) := by
  induction payload generalizing store with
  | nil => simp
  | cons s rest ih =>
      simp only [List.foldl_cons, ih, mem_keys_dictSet, List.map_cons,
        List.mem_cons]
      tauto

/-- The update loop of `_update_workspace_settings` keeps the keys duplicate
free. -/
theorem nodup_keys_update_foldl (env : Env) (payload : List Setting)
    (store : Store) (h : (store.map Prod.fst).Nodup) :
    ((payload.foldl (fun st s =>
          let key := env.to_fs_path s.workspace
          dictSet st key
            { cwd := key, workspace := s.workspace, path := s.path
            , interpreter := s.interpreter, args := s.args
            , importStrategy := s.importStrategy
            , showNotifications := s.showNotifications
            , workspaceFS := key }) store).map Prod.fst).Nodup := by
  induction payload generalizing store with
  | nil => exact h
  | cons s rest ih =>
      simp only [List.foldl_cons]
      apply ih
      rw [keys_dictSet]
      by_cases hk : store.any (fun p => p.1 = env.to_fs_path s.workspace)
      · simpa [hk] using h
      · have hnotmem : env.to_fs_path s.workspace ∉ store.map Prod.fst := by
          intro hmem
          obtain ⟨p, hp, hpk⟩ := List.mem_map.mp hmem
          exact absurd (List.any_eq_true.mpr ⟨p, hp, by simpa using hpk⟩) hk
        simp only [hk, if_false]
        simp [List.nodup_append, h, hnotmem]

/-! ## Claim theorems: settings store -/

/-- C2 counterexample: the update with payload `[settingNew]` applied to a
store that a previous payload `[settingOld]` populated keeps the stale root
`/old` — the store then has keys `["/old", "/new"]`, so the operation is not a
full-store replace and a root present only in a previous payload is not
absent. -/
theorem update_retains_stale_roots :
    (_update_workspace_settings envA [settingNew]
        (_update_workspace_settings envA [settingOld] [])).map Prod.fst
      = ["/old", "/new"] := by decide

/-- C2 (amended): for a non-empty configuration payload the update operation
is an incremental upsert, not a full-store replace: afterwards the store keys
are exactly the previous keys together with the workspace-root keys of the new
payload (so stale roots from a previous payload are retained), with one record
per key (duplicate-freeness of keys is preserved). -/
theorem update_is_incremental_upsert (env : Env) (payload : List Setting)
    (store : Store) (k : String) (hne : payload ≠ []) :
    (k ∈ (_update_workspace_settings env payload store).map Prod.fst
      ↔ k ∈ store.map Prod.fst
        ∨ k ∈ payload.map (fun s => env.to_fs_path s.workspace))
    ∧ ((store.map Prod.fst).Nodup →
        ((_update_workspace_settings env payload store).map Prod.fst).Nodup) := by
  unfold _update_workspace_settings
  rw [if_neg hne]
  exact ⟨mem_keys_update_foldl env payload store k,
    nodup_keys_update_foldl env payload store⟩

/-- Witness for C2 (amended), at the concrete input of the counterexample:
after updating the `/old` store with the `[settingNew]` payload, `/old` is
still a key. -/
theorem update_is_incremental_upsert_witness :
    ("/old" ∈ (_update_workspace_settings envA [settingNew]
        (_update_workspace_settings envA [settingOld] [])).map Prod.fst
      ↔ "/old" ∈ (_update_workspace_settings envA [settingOld] []).map Prod.fst
        ∨ "/old" ∈ [settingNew].map (fun s => envA.to_fs_path s.workspace))
    ∧ (((_update_workspace_settings envA [settingOld] []).map Prod.fst).Nodup →
        ((_update_workspace_settings envA [settingNew]
          (_update_workspace_settings envA [settingOld] [])).map Prod.fst).Nodup) :=
  update_is_incremental_upsert envA [settingNew]
    (_update_workspace_settings envA [settingOld] []) "/old" (by decide)

/-- C3 counterexample: resolving with an empty settings store and no document
does not return a synthesized record — `list(WORKSPACE_SETTINGS.values())[0]`
raises an `IndexError` (modelled as `none`). -/
theorem resolve_empty_store_no_document_raises :
    _get_settings_by_document envA [] none = none := by decide

/-- C3 (amended): resolving with an empty store and no document fails with an
`IndexError` instead of returning a record; the synthesized default record
keyed by the process's current working directory is produced by the settings
update when given an empty payload, and resolving with no document after that
update returns exactly that record, whose workspace root is the current
working directory. -/
theorem resolve_default_comes_from_update (env : Env) :
    _get_settings_by_document env [] none = none
    ∧ _get_settings_by_document env (_update_workspace_settings env [] []) none
        = some (defaultRecord env env.cwd)
    ∧ (defaultRecord env env.cwd).workspaceFS = env.cwd
    ∧ (defaultRecord env env.cwd).cwd = env.cwd := by
  refine ⟨rfl, ?_, rfl, rfl⟩
  simp [_update_workspace_settings, dictSet, _get_settings_by_document,
    dictValues]

/-- C5 counterexample: the ancestor walk starts at the document's full path,
filename included — for a store whose roots are the full file path
`/a/b/c/file.x` and its directory `/a/b/c`, the document at `/a/b/c/file.x`
resolves to the record stored under the file path itself, not to the
directory's record. -/
theorem resolver_compares_full_file_path :
    _get_settings_by_document envA storeFileX (some docFileX) = some recFileX
    ∧ recFileX ≠ recDirC := by decide

/-- C5 (amended): the ancestor walk starts at the document's own full path
(the filename is compared against workspace roots first) and proceeds outward,
first exact match winning: whenever the path itself is a stored workspace
root it is returned, and for a store containing roots `/a` and `/a/b` the
document at `/a/b/c/file.x` resolves to the `/a/b` record, not the (distinct)
`/a` record. -/
theorem resolver_walks_from_full_path_longest_match (store : Store)
    (p : PyPath) (hne : store.isEmpty = false) (hp : p ≠ [])
    (hmem : (workspaceRoots store).contains (pathStr p) = true) :
    _get_document_key store p = some (pathStr p)
    ∧ _get_settings_by_document envA storeAB (some docFileX) = some recAB
    ∧ recA ≠ recAB := by
  refine ⟨?_, by decide, by decide⟩
  unfold _get_document_key findWorkspaceKey
  rw [hne]
  rcases hrev : p.reverse with _ | ⟨c, rest⟩
  · exact absurd (by simpa using congrArg List.reverse hrev) hp
  · unfold findWorkspaceKeyRev
    have hcr : (c :: rest).reverse = p := by
      rw [← hrev, List.reverse_reverse]
    rw [hcr, hmem]
    simp

/-- Witness for C5 (amended): the document's own path `/a/b/c/file.x` is a
stored root of `storeFileX` and is returned by the walk. -/
theorem resolver_walks_from_full_path_longest_match_witness :
    _get_document_key storeFileX ["a", "b", "c", "file.x"]
        = some "/a/b/c/file.x"
    ∧ _get_settings_by_document envA storeAB (some docFileX) = some recAB
    ∧ recA ≠ recAB := by
  have h := resolver_walks_from_full_path_longest_match storeFileX
    ["a", "b", "c", "file.x"] (by decide) (by decide) (by decide)
  simpa using h

/-- C9: for the record `{path: [], interpreter: [current], args: ["--check"]}`
stored under `/proj` and the document `/proj/x.src` with `use_stdin = false`,
`_run_tool_on_document` selects the in-process-module strategy and builds an
argv ending with `["--check", "/proj/x.src"]` — the document path is appended
because stdin is not used. -/
theorem scenario_inprocess_argv_ends_with_check_path :
    (_run_tool_on_document envA bkA storeC9 [] docC9 false none).calls.map
        BackendCall.strategy = [Strategy.InProcessModule]
    ∧ (_run_tool_on_document envA bkA storeC9 [] docC9 false none).calls.map
        BackendCall.argv = [["unittest_generator", "--check", "/proj/x.src"]]
    ∧ ["--check", "/proj/x.src"] <:+
        ["unittest_generator", "--check", "/proj/x.src"] := by decide

/-! ## Claim theorems: key-field invariant of the store -/

/-- `dictSet` preserves the per-entry invariant relating a record to its key,
when the written record itself satisfies it. -/
theorem dictSet_preserves_keyinv (store : Store) (k : String) (v : Record)
    (hinv : ∀ p ∈ store, (p.2).workspaceFS = p.1 ∧ (p.2).cwd = p.1)
    (hv : v.workspaceFS = k ∧ v.cwd = k) :
    ∀ p ∈ dictSet store k v, (p.2).workspaceFS = p.1 ∧ (p.2).cwd = p.1 := by
  unfold dictSet
  by_cases h : store.any (fun p => p.1 = k)
  · simp only [h, if_true]
    intro p hp
    obtain ⟨q, hq, hqp⟩ := List.mem_map.mp hp
    by_cases hqk : q.1 = k
    · rw [if_pos hqk] at hqp
      subst hqp
      exact hv
    · rw [if_neg hqk] at hqp
      subst hqp
      exact hinv q hq
  · simp only [h, if_false]
    intro p hp
    rcases List.mem_append.mp hp with hmem | hmem
    · exact hinv p hmem
    · rcases List.mem_singleton.mp hmem with rfl
      exact hv

/-- The update loop of `_update_workspace_settings` preserves the key-field
invariant. -/
theorem update_foldl_preserves_keyinv (env : Env) (payload : List Setting)
    (store : Store)
    (hinv : ∀ p ∈ store, (p.2).workspaceFS = p.1 ∧ (p.2).cwd = p.1) :
    ∀ p ∈ payload.foldl (fun st s =>
          let key := env.to_fs_path s.workspace
          dictSet st key
            { cwd := key, workspace := s.workspace, path := s.path
            , interpreter := s.interpreter, args := s.args
            , importStrategy := s.importStrategy
            , showNotifications := s.showNotifications
            , workspaceFS := key }) store,
      (p.2).workspaceFS = p.1 ∧ (p.2).cwd = p.1 := by
  induction payload generalizing store with
  | nil => exact hinv
  | cons s rest ih =>
      simp only [List.foldl_cons]
      exact ih _ (dictSet_preserves_keyinv _ _ _ hinv ⟨rfl, rfl⟩)

/-- C10: the settings update preserves the invariant that every stored record,
under key `k`, has `workspaceFS = k` and `cwd = k`.  The inbound config
objects carry exactly the six inbound fields (enforced by the `Setting`
structure), so the `{"cwd": key, **setting, "workspaceFS": key}` splat cannot
override the two key fields; the empty-payload branch writes the synthesized
default record, which also satisfies the invariant. -/
theorem update_preserves_key_field_invariant (env : Env)
    (payload : List Setting) (store : Store)
    (hinv : ∀ p ∈ store, (p.2).workspaceFS = p.1 ∧ (p.2).cwd = p.1) :
    ∀ p ∈ _update_workspace_settings env payload store,
      (p.2).workspaceFS = p.1 ∧ (p.2).cwd = p.1 := by
  unfold _update_workspace_settings
  by_cases hp : payload = []
  · rw [if_pos hp]
    exact dictSet_preserves_keyinv _ _ _ hinv ⟨rfl, rfl⟩
  · rw [if_neg hp]
    exact update_foldl_preserves_keyinv env payload store hinv

/-- Witness for C10: concretely, the record stored for `settingNew` in an
empty store carries its own key `/new` in both `workspaceFS` and `cwd`. -/
theorem update_preserves_key_field_invariant_witness :
    recNewStored.workspaceFS = "/new" ∧ recNewStored.cwd = "/new" :=
  update_preserves_key_field_invariant envA [settingNew] [] (by simp)
    ("/new", recNewStored) (by decide)

/-! ## Further fixtures for the dispatcher claims -/

/-- A record requesting a different interpreter (`/usr/bin/other`), which
selects the cross-runtime RPC strategy under `envA`. -/
def recRpc : Record where
  cwd := "/proj"
  workspace := "file:///proj"
  workspaceFS := "/proj"
  path := []
  interpreter := ["/usr/bin/other"]
  args := []
  importStrategy := "useBundled"
  showNotifications := "off"

/-- A store holding only `recRpc` under its workspace root. -/
def storeRpc : Store := [("/proj", recRpc)]

/-- Backends whose cross-runtime response carries a remote exception. -/
def bkExc : Backends where
  run_path := fun _ _ _ _ => { stdout := "", stderr := "" }
  rpc := .remoteException "remote-trace"
  run_module := fun _ _ _ _ _ sp => (.ok { stdout := "", stderr := "" }, sp)

/-- An environment where source `"("` fails to parse and
`/usr/lib/python/os.py` is a standard-library file. -/
def envB : Env :=
  { envA with
    parsesOk := fun s => !(s == "(")
    is_stdlib_file := fun p => p == "/usr/lib/python/os.py" }

/-- A document in a virtual notebook cell. -/
def docNb : Document where
  uri := "vscode-notebook-cell://nb/cell"
  path := some ["nb", "cell"]
  source := "pass"

/-- A document whose content does not parse as Python. -/
def docBad : Document where
  uri := "file:///proj/bad.py"
  path := some ["proj", "bad.py"]
  source := "("

/-- A document under the standard-library path. -/
def docStd : Document where
  uri := "file:///usr/lib/python/os.py"
  path := some ["usr", "lib", "python", "os.py"]
  source := "pass"

/-! ## Claim theorems: dispatcher -/

/-- C1: in both entry points, a cross-runtime RPC invocation whose well-formed
response carries a remote exception returns a result with empty stdout and
empty stderr to the caller, with the remote traceback recorded as the failure
via an error-level log entry. -/
theorem rpc_remote_exception_degrades_output (env : Env) (bk : Backends)
    (store : Store) (sysPath : List String) (document : Document) (u : Bool)
    (ea : Option (List String)) (extra2 : List String) (tb : String)
    (s1 s2 : Record)
    (hrpc : bk.rpc = RemoteResponse.remoteException tb)
    (hnb : pyStartsWith document.uri "vscode-notebook-cell" = false)
    (hpy : env.parsesOk document.source = true)
    (hstd : env.is_stdlib_file document.pathString = false)
    (hres1 : _get_settings_by_document env store (some document) = some s1)
    (hsel1 : selectStrategy env s1 = .CrossRuntimeRpc)
    (hres2 : _get_settings_by_document env store none = some s2)
    (hsel2 : selectStrategy env s2 = .CrossRuntimeRpc) :
    ((_run_tool_on_document env bk store sysPath document u ea).result
        = .ok (some { stdout := "", stderr := "" })
      ∧ LogEntry.mk .error tb ∈
          (_run_tool_on_document env bk store sysPath document u ea).log)
    ∧ ((_run_tool env bk store sysPath extra2).result
        = .ok (some { stdout := "", stderr := "" })
      ∧ LogEntry.mk .error tb ∈ (_run_tool env bk store sysPath extra2).log) := by
  constructor
  · simp only [_run_tool_on_document, is_python, hnb, hpy, hstd, hres1, hsel1,
      hrpc, run_over_json_rpc]
    simp
  · simp only [_run_tool, hres2, hsel2, hrpc, run_over_json_rpc]
    simp

/-- Witness for C1 at a concrete input: store `storeRpc`, backends `bkExc`. -/
theorem rpc_remote_exception_degrades_output_witness :
    ((_run_tool_on_document envA bkExc storeRpc [] docC9 false none).result
        = .ok (some { stdout := "", stderr := "" })
      ∧ LogEntry.mk .error "remote-trace" ∈
          (_run_tool_on_document envA bkExc storeRpc [] docC9 false none).log)
    ∧ ((_run_tool envA bkExc storeRpc [] []).result
        = .ok (some { stdout := "", stderr := "" })
      ∧ LogEntry.mk .error "remote-trace" ∈
          (_run_tool envA bkExc storeRpc [] []).log) :=
  rpc_remote_exception_degrades_output envA bkExc storeRpc [] docC9 false none
    [] "remote-trace" recRpc recRpc (by decide) (by decide) (by decide)
    (by decide) (by decide) (by decide) (by decide) (by decide)

/-- C4 counterexample: `_run_tool` does not include the resolved record's
user-configured args in argv — with `recC9.args = ["--check"]` and call-site
extra args `["-x"]`, the single backend call gets
`argv = ["unittest_generator", "-x"]`, which does not contain `"--check"`. -/
theorem run_tool_omits_configured_args :
    recC9.args = ["--check"]
    ∧ (_run_tool envA bkA storeC9 [] ["-x"]).calls
        = [BackendCall.module "unittest_generator"
            ["unittest_generator", "-x"] true "/proj" none]
    ∧ "--check" ∉ (["unittest_generator", "-x"] : List String) := by decide

/-- C4 (amended): `_run_tool` runs the pipeline without a document — every
backend call it performs has `useStdin = true` and no document path appended,
but its argv is only the strategy base (the configured tool path, or the
module name) followed by the call-site extra args; the configured fixed args
and the record's user-configured args are not included. -/
theorem run_tool_argv_is_base_plus_extra (env : Env) (bk : Backends)
    (store : Store) (sysPath extra : List String) (s : Record)
    (hres : _get_settings_by_document env store none = some s) :
    ∀ c ∈ (_run_tool env bk store sysPath extra).calls,
      c.useStdin = true
      ∧ c.argv = (if s.path.isEmpty then [TOOL_MODULE] else s.path) ++ extra := by
  simp only [_run_tool, hres]
  by_cases hpath : s.path.isEmpty = true
  · by_cases hint : (!s.interpreter.isEmpty
        && !env.is_current_interpreter (s.interpreter.headD "")) = true
    · have hsel : selectStrategy env s = .CrossRuntimeRpc := by
        simp only [selectStrategy, hpath, hint]
        simp
      simp only [hsel, hpath]
      split <;> simp [BackendCall.useStdin, BackendCall.argv]
    · have hint2 : (!s.interpreter.isEmpty
          && !env.is_current_interpreter (s.interpreter.headD "")) = false := by
        revert hint
        cases (!s.interpreter.isEmpty
          && !env.is_current_interpreter (s.interpreter.headD "")) <;> simp
      have hsel : selectStrategy env s = .InProcessModule := by
        simp only [selectStrategy, hpath, hint2]
        simp
      simp only [hsel, hpath]
      split <;> simp [BackendCall.useStdin, BackendCall.argv]
  · have hpath2 : s.path.isEmpty = false := by
      revert hpath
      cases s.path.isEmpty <;> simp
    have hsel : selectStrategy env s = .DirectPath := by
      simp only [selectStrategy, hpath2]
      simp
    simp only [hsel, hpath2]
    simp [BackendCall.useStdin, BackendCall.argv]

/-- Witness for C4 (amended) at the counterexample's input. -/
theorem run_tool_argv_is_base_plus_extra_witness :
    (BackendCall.module "unittest_generator" ["unittest_generator", "-x"]
        true "/proj" none).useStdin = true
    ∧ (BackendCall.module "unittest_generator" ["unittest_generator", "-x"]
        true "/proj" none).argv
      = (if recC9.path.isEmpty then [TOOL_MODULE] else recC9.path) ++ ["-x"] :=
  run_tool_argv_is_base_plus_extra envA bkA storeC9 [] ["-x"] recC9 (by decide)
    (BackendCall.module "unittest_generator" ["unittest_generator", "-x"]
      true "/proj" none) (by decide)

/-- C6: both entry points dispatch exactly one backend call whose strategy is
the one selected from the resolved record by the fixed priority, and that
priority is: a non-empty `path` always yields DirectPath; an empty `path`
with a non-empty `interpreter` whose first element is not the current runtime
yields CrossRuntimeRpc; otherwise — including when the interpreter is the
current runtime's own — InProcessModule. -/
theorem strategy_selection_priority (env : Env) (bk : Backends) (store : Store)
    (sysPath : List String) (document : Document) (u : Bool)
    (ea : Option (List String)) (extra2 : List String) (s1 s2 : Record)
    (hnb : pyStartsWith document.uri "vscode-notebook-cell" = false)
    (hpy : env.parsesOk document.source = true)
    (hstd : env.is_stdlib_file document.pathString = false)
    (hres1 : _get_settings_by_document env store (some document) = some s1)
    (hres2 : _get_settings_by_document env store none = some s2) :
    (_run_tool_on_document env bk store sysPath document u ea).calls.map
        BackendCall.strategy = [selectStrategy env s1]
    ∧ (_run_tool env bk store sysPath extra2).calls.map BackendCall.strategy
        = [selectStrategy env s2]
    ∧ (∀ s : Record, s.path.isEmpty = false →
        selectStrategy env s = .DirectPath)
    ∧ (∀ s : Record, s.path.isEmpty = true → s.interpreter.isEmpty = false →
        env.is_current_interpreter (s.interpreter.headD "") = false →
        selectStrategy env s = .CrossRuntimeRpc)
    ∧ (∀ s : Record, s.path.isEmpty = true →
        (s.interpreter.isEmpty = true ∨
          env.is_current_interpreter (s.interpreter.headD "") = true) →
        selectStrategy env s = .InProcessModule) := by
  refine ⟨?_, ?_, ?_, ?_, ?_⟩
  · simp only [_run_tool_on_document, is_python, hnb, hpy, hstd, hres1]
    rcases hsel : selectStrategy env s1 with _ | _ | _ <;>
      simp only [hsel] <;> repeat' split
    all_goals simp_all [BackendCall.strategy]
  · simp only [_run_tool, hres2]
    rcases hsel : selectStrategy env s2 with _ | _ | _ <;>
      simp only [hsel] <;> repeat' split
    all_goals simp_all [BackendCall.strategy]
  · intro s hs
    simp_all [selectStrategy]
  · intro s hs hi hcur
    simp_all [selectStrategy]
  · intro s hs hdisj
    rcases hdisj with hi | hcur <;> simp_all [selectStrategy]

/-- Witness for C6 at a concrete input: store `storeC9`, whose record selects
the in-process strategy. -/
theorem strategy_selection_priority_witness :
    (_run_tool_on_document envA bkA storeC9 [] docC9 false none).calls.map
        BackendCall.strategy = [selectStrategy envA recC9]
    ∧ (_run_tool envA bkA storeC9 [] []).calls.map BackendCall.strategy
        = [selectStrategy envA recC9]
    ∧ (∀ s : Record, s.path.isEmpty = false →
        selectStrategy envA s = .DirectPath)
    ∧ (∀ s : Record, s.path.isEmpty = true → s.interpreter.isEmpty = false →
        envA.is_current_interpreter (s.interpreter.headD "") = false →
        selectStrategy envA s = .CrossRuntimeRpc)
    ∧ (∀ s : Record, s.path.isEmpty = true →
        (s.interpreter.isEmpty = true ∨
          envA.is_current_interpreter (s.interpreter.headD "") = true) →
        selectStrategy envA s = .InProcessModule) :=
  strategy_selection_priority envA bkA storeC9 [] docC9 false none [] recC9
    recC9 (by decide) (by decide) (by decide) (by decide) (by decide)

/-- C7: the pre-filters of `_run_tool_on_document`, in order: a notebook-cell
URI is skipped before any backend call with no log entry; content that fails
to parse is skipped with exactly one warning-level log entry and no backend
call; a standard-library file (whose content parses) is skipped with no log
entry and no backend call. -/
theorem run_on_document_skip_filters (env : Env) (bk : Backends)
    (store : Store) (sysPath : List String) (d1 d2 d3 : Document) (u : Bool)
    (ea : Option (List String))
    (h1 : pyStartsWith d1.uri "vscode-notebook-cell" = true)
    (h2a : pyStartsWith d2.uri "vscode-notebook-cell" = false)
    (h2b : env.parsesOk d2.source = false)
    (h3a : pyStartsWith d3.uri "vscode-notebook-cell" = false)
    (h3b : env.parsesOk d3.source = true)
    (h3c : env.is_stdlib_file d3.pathString = true) :
    ((_run_tool_on_document env bk store sysPath d1 u ea).result = .ok none
      ∧ (_run_tool_on_document env bk store sysPath d1 u ea).calls = []
      ∧ (_run_tool_on_document env bk store sysPath d1 u ea).log = [])
    ∧ ((_run_tool_on_document env bk store sysPath d2 u ea).result = .ok none
      ∧ (_run_tool_on_document env bk store sysPath d2 u ea).calls = []
      ∧ ((_run_tool_on_document env bk store sysPath d2 u ea).log.filter
          (fun e => e.level == LogLevel.warning)).length = 1)
    ∧ ((_run_tool_on_document env bk store sysPath d3 u ea).result = .ok none
      ∧ (_run_tool_on_document env bk store sysPath d3 u ea).calls = []
      ∧ (_run_tool_on_document env bk store sysPath d3 u ea).log = []) := by
  refine ⟨?_, ?_, ?_⟩
  · simp [_run_tool_on_document, h1]
  · simp [_run_tool_on_document, is_python, h2a, h2b, List.filter]
  · simp [_run_tool_on_document, is_python, h3a, h3b, h3c]

/-- Witness for C7 at concrete documents under `envB`. -/
theorem run_on_document_skip_filters_witness :
    ((_run_tool_on_document envB bkA storeC9 [] docNb false none).result
        = .ok none
      ∧ (_run_tool_on_document envB bkA storeC9 [] docNb false none).calls = []
      ∧ (_run_tool_on_document envB bkA storeC9 [] docNb false none).log = [])
    ∧ ((_run_tool_on_document envB bkA storeC9 [] docBad false none).result
        = .ok none
      ∧ (_run_tool_on_document envB bkA storeC9 [] docBad false none).calls = []
      ∧ ((_run_tool_on_document envB bkA storeC9 [] docBad false none).log.filter
          (fun e => e.level == LogLevel.warning)).length = 1)
    ∧ ((_run_tool_on_document envB bkA storeC9 [] docStd false none).result
        = .ok none
      ∧ (_run_tool_on_document envB bkA storeC9 [] docStd false none).calls = []
      ∧ (_run_tool_on_document envB bkA storeC9 [] docStd false none).log = []) :=
  run_on_document_skip_filters envB bkA storeC9 [] docNb docBad docStd false
    none (by decide) (by decide) (by decide) (by decide) (by decide)
    (by decide)

/-- C8: the process-wide `sys.path` state after either entry point equals its
value before the call, for every backend behavior — including a `run_module`
that mutates the scoped path state and/or raises — because the in-process
branch runs the tool inside `substitute_attr` against a scoped copy, restored
on every exit path. -/
theorem in_process_sys_path_preserved (env : Env) (bk : Backends)
    (store : Store) (sysPath : List String) (document : Document) (u : Bool)
    (ea : Option (List String)) (extra2 : List String) :
    (_run_tool_on_document env bk store sysPath document u ea).sysPath = sysPath
    ∧ (_run_tool env bk store sysPath extra2).sysPath = sysPath := by
  constructor
  · by_cases hnb : pyStartsWith document.uri "vscode-notebook-cell" = true
    · simp [_run_tool_on_document, hnb]
    · by_cases hpy : env.parsesOk document.source = true
      · by_cases hstd : env.is_stdlib_file document.pathString = true
        · simp [_run_tool_on_document, is_python, hnb, hpy, hstd]
        · rcases hres : _get_settings_by_document env store (some document)
            with _ | s
          · simp [_run_tool_on_document, is_python, hnb, hpy, hstd, hres]
          · simp only [_run_tool_on_document, is_python, hnb, hpy, hstd, hres]
            rcases hsel : selectStrategy env s with _ | _ | _ <;>
              simp only [hsel] <;> repeat' split
            all_goals simp_all [substitute_attr]
      · simp [_run_tool_on_document, is_python, hnb, hpy]
  · rcases hres : _get_settings_by_document env store none with _ | s
    · simp [_run_tool, hres]
    · simp only [_run_tool, hres]
      rcases hsel : selectStrategy env s with _ | _ | _ <;>
        simp only [hsel] <;> repeat' split
      all_goals simp_all [substitute_attr]

end UnittestLsp
